import Mathlib

/-!
Shallow embedding of the ctestfw compiler-test harness (src/ctestfw) and
proofs about its contracts.

Modelling conventions:
* Python `Path` values are plain strings; POSIX path joining (`a / b` in
  pathlib) is `pathJoin`, and `Path.is_absolute()` / `str.startswith("/")`
  is `isAbs` (first character is `/`).
* Byte strings are `List Nat` (each entry one byte).
* The filesystem is an oracle `FS : String → Option (List Nat)` mapping a
  path to the file's content when the file exists.
* Raising an exception is returning `Except.error`; Python code that lets
  an exception propagate is embedded as propagating the `.error` value.
* `subprocess.run` is an oracle of type `Subprocess`; a raised
  `TimeoutExpired` or launch failure is `RunError`.
* Timeouts (Python floats compared only against `0`) are rationals.
-/

namespace CTestFw

/-! ## platform.py -/

/-- Embeds `class OS(Enum)` of `platform.py`. -/
inductive OS
  | LINUX
  | MACOS
  | WINDOWS
  | OTHER
deriving DecidableEq, Repr

/-- Embeds `class Arch(Enum)` of `platform.py`. -/
inductive Arch
  | X86_64
  | ARM64
  | X86_32
  | ARM32
  | OTHER
deriving DecidableEq, Repr

/-- Embeds `PlatformInfo` of `platform.py`. -/
structure PlatformInfo where
  os : OS
  arch : Arch
  machine : String
  system : String
deriving DecidableEq, Repr

/-! ## inspect/filetype.py -/

/-- Embeds `class ArtifactKind(Enum)` of `inspect/filetype.py`. -/
inductive ArtifactKind
  | ELF
  | MACHO
  | LLVM_IR_TEXT
  | LLVM_BITCODE
  | UNKNOWN
deriving DecidableEq, Repr

/-- The `.name` attribute of a Python `ArtifactKind` member. -/
def ArtifactKind.pyName : ArtifactKind → String
  | .ELF => "ELF"
  | .MACHO => "MACHO"
  | .LLVM_IR_TEXT => "LLVM_IR_TEXT"
  | .LLVM_BITCODE => "LLVM_BITCODE"
  | .UNKNOWN => "UNKNOWN"

/-- The `.name` attribute of a Python `OS` member. -/
def OS.pyName : OS → String
  | .LINUX => "LINUX"
  | .MACOS => "MACOS"
  | .WINDOWS => "WINDOWS"
  | .OTHER => "OTHER"

/-- Embeds `ArtifactInfo` of `inspect/filetype.py`. -/
structure ArtifactInfo where
  path : String
  kind : ArtifactKind
deriving DecidableEq, Repr

/-- Is the byte a UTF-8 continuation byte (`0x80..0xBF`)? -/
def utf8Cont (b : Nat) : Bool := decide (0x80 ≤ b ∧ b ≤ 0xBF)

/-- Fuel-indexed worker for `decodeUtf8Ignore`; every step consumes at
least one input byte, so fuel equal to the input length suffices. Invalid
or truncated sequences are dropped (the lead byte together with the valid
continuation bytes already consumed), mirroring CPython's `errors="ignore"`
handler. -/
def decodeUtf8IgnoreAux : Nat → List Nat → List Char
  | 0, _ => []
  | _, [] => []
  | fuel + 1, b :: rest =>
    if b ≤ 0x7F then
      Char.ofNat b :: decodeUtf8IgnoreAux fuel rest
    else if 0xC2 ≤ b ∧ b ≤ 0xDF then
      match rest with
      | [] => []
      | b2 :: rest2 =>
        if utf8Cont b2 then
          Char.ofNat ((b - 0xC0) * 0x40 + (b2 - 0x80)) :: decodeUtf8IgnoreAux fuel rest2
        else decodeUtf8IgnoreAux fuel rest
    else if 0xE0 ≤ b ∧ b ≤ 0xEF then
      -- the second byte's range depends on the lead (no overlongs, no surrogates)
      let lo2 := if b = 0xE0 then 0xA0 else 0x80
      let hi2 := if b = 0xED then 0x9F else 0xBF
      match rest with
      | [] => []
      | b2 :: rest2 =>
        if lo2 ≤ b2 ∧ b2 ≤ hi2 then
          match rest2 with
          | [] => []
          | b3 :: rest3 =>
            if utf8Cont b3 then
              Char.ofNat ((b - 0xE0) * 0x1000 + (b2 - 0x80) * 0x40 + (b3 - 0x80)) ::
                decodeUtf8IgnoreAux fuel rest3
            else decodeUtf8IgnoreAux fuel rest2
        else decodeUtf8IgnoreAux fuel rest
    else if 0xF0 ≤ b ∧ b ≤ 0xF4 then
      let lo2 := if b = 0xF0 then 0x90 else 0x80
      let hi2 := if b = 0xF4 then 0x8F else 0xBF
      match rest with
      | [] => []
      | b2 :: rest2 =>
        if lo2 ≤ b2 ∧ b2 ≤ hi2 then
          match rest2 with
          | [] => []
          | b3 :: rest3 =>
            if utf8Cont b3 then
              match rest3 with
              | [] => []
              | b4 :: rest4 =>
                if utf8Cont b4 then
                  Char.ofNat ((b - 0xF0) * 0x40000 + (b2 - 0x80) * 0x1000 +
                      (b3 - 0x80) * 0x40 + (b4 - 0x80)) ::
                    decodeUtf8IgnoreAux fuel rest4
                else decodeUtf8IgnoreAux fuel rest3
            else decodeUtf8IgnoreAux fuel rest2
        else decodeUtf8IgnoreAux fuel rest
    else decodeUtf8IgnoreAux fuel rest

/-- Embeds `data.decode("utf-8", errors="ignore")`: total best-effort UTF-8
decoding, undecodable bytes skipped, never failing. -/
def decodeUtf8Ignore (data : List Nat) : List Char :=
  decodeUtf8IgnoreAux data.length data

/-- ASCII whitespace stripped by Python's `str.lstrip()` (the Unicode-only
whitespace code points are not modelled; no claim depends on them). -/
def pyIsSpace (c : Char) : Bool :=
  c = ' ' || c = '\t' || c = '\n' || c = '\r' || c = Char.ofNat 0x0B || c = Char.ofNat 0x0C

/-- Embeds `txt.lstrip()`. -/
def lstrip (s : List Char) : List Char := s.dropWhile pyIsSpace

/-- Embeds `int.from_bytes(bs, byteorder="big", signed=False)`. -/
def intFromBytesBE (bs : List Nat) : Nat := bs.foldl (fun acc b => acc * 256 + b) 0

/-- Embeds `int.from_bytes(bs, byteorder="little", signed=False)`. -/
def intFromBytesLE (bs : List Nat) : Nat := intFromBytesBE bs.reverse

/-- The `macho_magics` set literal of `detect_artifact_kind`. -/
def machoMagics : List Nat :=
  [0xFEEDFACE, 0xFEEDFACF, 0xCAFEBABE, 0xCEFAEDFE, 0xCFFAEDFE, 0xBEBAFECA]

/-- Embeds Python's substring test `needle in hay` on decoded text. -/
def containsSeq (needle : List Char) : List Char → Bool
  | [] => needle.isEmpty
  | c :: rest => needle.isPrefixOf (c :: rest) || containsSeq needle rest

/-- The `is_ir_text` test of `detect_artifact_kind` applied to the
whitespace-stripped decoded head. -/
def isIrTextHead (head : List Char) : Bool :=
  "; ModuleID =".toList.isPrefixOf head ||
    "source_filename".toList.isPrefixOf head ||
    containsSeq "target triple".toList (head.take 120)

/-- The classification cascade of `detect_artifact_kind` applied to the
(at most 64) bytes read from the file, in source order: ELF magic, Mach-O
magic set (both byte orders), LLVM bitcode magic, LLVM IR text heuristics,
otherwise `UNKNOWN`. -/
def classifyBytes (data : List Nat) : ArtifactKind :=
  if 4 ≤ data.length ∧ data.take 4 = [0x7F, 0x45, 0x4C, 0x46] then
    ArtifactKind.ELF
  else if 4 ≤ data.length ∧
      (intFromBytesBE (data.take 4) ∈ machoMagics ∨ intFromBytesLE (data.take 4) ∈ machoMagics) then
    ArtifactKind.MACHO
  else if 4 ≤ data.length ∧ data.take 4 = [0x42, 0x43, 0xC0, 0xDE] then
    ArtifactKind.LLVM_BITCODE
  else if isIrTextHead (lstrip (decodeUtf8Ignore data)) then
    ArtifactKind.LLVM_IR_TEXT
  else
    ArtifactKind.UNKNOWN

/-- The filesystem oracle: path to file content, `none` when absent. -/
abbrev FS := String → Option (List Nat)

/-- A non-`AssertError` filesystem exception (here `FileNotFoundError`,
raised by `p.open` in `_read_prefix` when the file does not exist). -/
inductive FsError
  | fileNotFound
deriving DecidableEq, Repr

/-- Embeds `_read_prefix(p, 64)`: the first at-most-64 bytes, or the
propagated `FileNotFoundError`. -/
def readPrefix64 (fs : FS) (p : String) : Except FsError (List Nat) :=
  match fs p with
  | none => .error .fileNotFound
  | some content => .ok (content.take 64)

/-- Embeds `detect_artifact_kind` of `inspect/filetype.py`. -/
def detect_artifact_kind (fs : FS) (p : String) : Except FsError ArtifactInfo :=
  match readPrefix64 fs p with
  | .error e => .error e
  | .ok data => .ok ⟨p, classifyBytes data⟩

/-! ## plan.py -/

/-- Embeds `CompilePlan` of `plan.py` (paths as strings). -/
structure CompilePlan where
  name : String
  sources : List String
  out : Option String := none
  extra_args : List String := []
deriving DecidableEq, Repr

/-- Embeds `CompilePlan.argv`: sources (stringified, in order), then
`-o <out>` when `out is not None`, then the extra arguments. -/
def CompilePlan.argv (p : CompilePlan) : List String :=
  let args : List String := []
  let args := args ++ p.sources.map (fun s => s)
  let args := args ++ (match p.out with | some o => ["-o", o] | none => [])
  let args := args ++ p.extra_args
  args

/-! ## result.py -/

/-- An environment map (a Python `Dict[str, str]`, keys unrepeated). -/
abbrev EnvMap := List (String × String)

/-- Embeds `RunResult` of `result.py`. -/
structure RunResult where
  argv : List String
  cwd : String
  exit_code : Int
  stdout : String
  stderr : String
  env : Option EnvMap := none
deriving DecidableEq, Repr

/-- Embeds `RunResult.ok`. -/
def RunResult.ok (r : RunResult) : Bool := r.exit_code == 0

/-- Embeds `CompileResult` of `result.py`. -/
structure CompileResult where
  run : RunResult
  output_path : Option String := none
  platform : Option PlatformInfo := none
deriving DecidableEq, Repr

/-! ## runner.py -/

/-- Embeds `RunnerConfig` of `runner.py` (the timeout, a Python float only
ever compared for falsiness, is a rational). -/
structure RunnerConfig where
  executable : String
  default_timeout_s : Rat := 20
  default_env : Option EnvMap := none

/-- What one `subprocess.run` call produces when it does not raise. -/
structure ProcOutcome where
  returncode : Int
  stdout : String
  stderr : String
deriving DecidableEq, Repr

/-- A hard execution failure: `subprocess.TimeoutExpired` or a process
launch failure (`OSError`). -/
inductive RunError
  | timeout
  | launchFailure
deriving DecidableEq, Repr

/-- The `subprocess.run` oracle: argv, cwd, env (`none` = inherit the
ambient environment), timeout. -/
abbrev Subprocess := List String → String → Option EnvMap → Rat → Except RunError ProcOutcome

/-- Embeds `dict.update`: keys of `base` keep their position with the
overriding value when `upd` has one; keys new in `upd` follow in order. -/
def dictUpdate (base upd : EnvMap) : EnvMap :=
  base.map (fun kv => match upd.lookup kv.1 with | some v => (kv.1, v) | none => kv) ++
    upd.filter (fun kv => (base.lookup kv.1).isNone)

/-- Python truthiness of an `Optional[Dict]`: `None` and `{}` are falsy. -/
def pyTruthyMap : Option EnvMap → Bool
  | none => false
  | some m => !m.isEmpty

/-- The `merged_env` computed by `CompilerRunner.run`:
`merged_env = dict(self._cfg.default_env or {})` then
`if env: merged_env.update(env)`. -/
def mergedEnvOf (cfg : RunnerConfig) (env : Option EnvMap) : EnvMap :=
  let m := match cfg.default_env with
    | some d => d
    | none => []
  if pyTruthyMap env then dictUpdate m (env.getD []) else m

/-- The environment `CompilerRunner.run` hands to `subprocess.run` (and
records in the `RunResult`): `merged_env if merged_env else None`. -/
def childEnvOf (cfg : RunnerConfig) (env : Option EnvMap) : Option EnvMap :=
  let merged := mergedEnvOf cfg env
  if merged.isEmpty then none else some merged

/-- The timeout `CompilerRunner.run` hands to `subprocess.run`:
`timeout_s or self._cfg.default_timeout_s`, where both `None` and `0` are
falsy. -/
def effectiveTimeout (cfg : RunnerConfig) (timeout_s : Option Rat) : Rat :=
  match timeout_s with
  | none => cfg.default_timeout_s
  | some t => if t = 0 then cfg.default_timeout_s else t

/-- Embeds `CompilerRunner.run` of `runner.py` against a `Subprocess`
oracle. A raised `TimeoutExpired` or launch failure propagates. -/
def CompilerRunner.run (cfg : RunnerConfig) (sub : Subprocess) (args : List String)
    (cwd : String) (env : Option EnvMap := none) (timeout_s : Option Rat := none) :
    Except RunError RunResult :=
  let argv := cfg.executable :: args.map (fun s => s)
  let childEnv := childEnvOf cfg env
  match sub argv cwd childEnv (effectiveTimeout cfg timeout_s) with
  | .error e => .error e
  | .ok p =>
    .ok { argv := argv, cwd := cwd, exit_code := p.returncode,
          stdout := p.stdout, stderr := p.stderr, env := childEnv }

/-- Embeds `CompilerRunner.compile`: run, then attach the given output
path and a platform snapshot (`detect_platform()` is the `host` oracle). -/
def CompilerRunner.compile (cfg : RunnerConfig) (sub : Subprocess) (host : PlatformInfo)
    (args : List String) (cwd : String) (output_path : Option String := none)
    (env : Option EnvMap := none) (timeout_s : Option Rat := none) :
    Except RunError CompileResult :=
  match CompilerRunner.run cfg sub args cwd env timeout_s with
  | .error e => .error e
  | .ok rr => .ok { run := rr, output_path := output_path, platform := some host }

/-! ## Path helpers (pathlib on POSIX) -/

/-- Embeds `str(s).startswith("/")` and `Path.is_absolute()` on POSIX. -/
def isAbs (s : String) : Bool :=
  match s.toList with
  | [] => false
  | c :: _ => c = '/'

/-- Embeds pathlib's `a / b`: `b` itself when absolute, else the joined
path. -/
def pathJoin (a b : String) : String := if isAbs b then b else a ++ "/" ++ b

/-- Embeds `Path.name` (the part after the last `/`; the trailing-slash
normalisation pathlib performs is not modelled, no claim depends on it). -/
def pathName (s : String) : String :=
  String.mk (s.toList.foldl (fun acc c => if c = '/' then [] else acc ++ [c]) [])

/-! ## assertions/core.py -/

/-- How an assertion's `check` can fail: a raised `AssertError` carrying a
message, or a non-`AssertError` exception escaping the check (the
embedding makes such a path explicit so that its absence is provable). -/
inductive CheckFailure
  | assertError (msg : String)
  | uncaught (e : FsError)
deriving DecidableEq, Repr

/-- Embeds `Assertion` of `assertions/core.py`; `check` additionally
receives the filesystem oracle the Python code reads implicitly. -/
structure Assertion where
  name : String
  check : FS → CompileResult → Except CheckFailure Unit

/-- Embeds `require` of `assertions/core.py`: raise `AssertError(msg)` when
the predicate is false. -/
def require (predicate : Bool) (msg : String) : Except CheckFailure Unit :=
  if predicate then .ok () else .error (.assertError msg)

/-- Embeds `Path.exists()` against the filesystem oracle. -/
def fsExists (fs : FS) (p : String) : Bool := (fs p).isSome

/-! ## assertions/compiler.py

Each Python factory guards its optional-field accesses with a `require` on
presence; the embedding renders `require(x is not None, msg)` followed by
uses of `x` as a `match` whose `none` branch raises the same message. A
call of `detect_artifact_kind` is matched on both constructors: its
`FileNotFoundError` branch surfaces as `CheckFailure.uncaught`, so that
"no assertion ever fails with anything but an `AssertError`" is a theorem
about the guards, not an artefact of the embedding. -/

/-- Embeds `assert_exit_code`. -/
def assert_exit_code (expected : Int := 0) : Assertion :=
  { name := "exit_code_is_" ++ toString expected,
    check := fun _ res =>
      require (res.run.exit_code == expected)
        ("exit_code expected " ++ toString expected ++ ", got " ++
          toString res.run.exit_code ++ "\nstderr:\n" ++ res.run.stderr) }

/-- The inner `for x in it` loop of `assert_argv_contains`: advance the
iterator until the needle matches, returning the iterator's remainder, or
`none` when the iterator is exhausted first. -/
def findConsume (needle : String) : List String → Option (List String)
  | [] => none
  | x :: xs => if x = needle then some xs else findConsume needle xs

/-- The full scan of `assert_argv_contains`: one shared iterator over
`argv`, advanced greedily for each needle in order. -/
def argvScan : List String → List String → Bool
  | [], _ => true
  | needle :: rest, avail =>
    match findConsume needle avail with
    | some remaining => argvScan rest remaining
    | none => false

/-- Embeds `assert_argv_contains`. -/
def assert_argv_contains (subseq : List String) : Assertion :=
  { name := "argv_contains",
    check := fun _ res =>
      let argv := res.run.argv
      let ssub := subseq.map (fun s => s)
      require (argvScan ssub argv)
        ("argv does not contain subsequence " ++ toString ssub ++ "\nargv=" ++ toString argv) }

/-- Embeds `assert_output_name`. -/
def assert_output_name (expected_name : String) : Assertion :=
  { name := "output_name",
    check := fun _ res =>
      match res.output_path with
      | none => .error (.assertError "no output_path provided to test")
      | some op =>
        require (pathName op == expected_name)
          ("output name expected '" ++ expected_name ++ "', got '" ++ pathName op ++ "'") }

/-- Embeds `assert_output_exists`. -/
def assert_output_exists : Assertion :=
  { name := "output_exists",
    check := fun fs res =>
      match res.output_path with
      | none => .error (.assertError "no output_path provided to test")
      | some op => require (fsExists fs op) ("output does not exist: " ++ op) }

/-- Embeds `assert_output_kind`. -/
def assert_output_kind (expected : ArtifactKind) : Assertion :=
  { name := "output_kind_" ++ expected.pyName,
    check := fun fs res =>
      match res.output_path with
      | none => .error (.assertError "no output_path provided to test")
      | some op => do
        require (fsExists fs op) ("output does not exist: " ++ op)
        match detect_artifact_kind fs op with
        | .error e => .error (.uncaught e)
        | .ok info =>
          require (info.kind == expected)
            ("output kind expected " ++ expected.pyName ++ ", got " ++
              info.kind.pyName ++ " (" ++ info.path ++ ")") }

/-- Embeds `_resolve_output_path`. -/
def resolve_output_path (res : CompileResult) (path : String) : String :=
  if !(isAbs path) then pathJoin res.run.cwd path else path

/-- Embeds `assert_output_exists_at`. -/
def assert_output_exists_at (path : String) : Assertion :=
  { name := "output_exists_at_" ++ pathName path,
    check := fun fs res =>
      let p := resolve_output_path res path
      require (fsExists fs p) ("output does not exist: " ++ p) }

/-- Embeds `assert_output_kind_at`. -/
def assert_output_kind_at (path : String) (expected : ArtifactKind) : Assertion :=
  { name := "output_kind_at_" ++ expected.pyName,
    check := fun fs res => do
      let p := resolve_output_path res path
      require (fsExists fs p) ("output does not exist: " ++ p)
      match detect_artifact_kind fs p with
      | .error e => .error (.uncaught e)
      | .ok info =>
        require (info.kind == expected)
          ("output kind expected " ++ expected.pyName ++ ", got " ++
            info.kind.pyName ++ " (" ++ info.path ++ ")") }

/-- Embeds `assert_output_nonempty_at` (`p.stat().st_size` is the length
of the file's content). -/
def assert_output_nonempty_at (path : String) : Assertion :=
  { name := "output_nonempty_at_" ++ pathName path,
    check := fun fs res => do
      let p := resolve_output_path res path
      require (fsExists fs p) ("output does not exist: " ++ p)
      require (decide (0 < ((fs p).getD []).length)) ("output is empty: " ++ p) }

/-- Embeds `assert_stdout_contains`. -/
def assert_stdout_contains (text : String) : Assertion :=
  { name := "stdout_contains_" ++ text,
    check := fun _ res =>
      require (containsSeq text.toList res.run.stdout.toList)
        ("stdout does not contain '" ++ text ++ "'\nstdout:\n" ++ res.run.stdout ++
          "\nstderr:\n" ++ res.run.stderr) }

/-- Embeds `assert_native_binary_kind`. -/
def assert_native_binary_kind : Assertion :=
  { name := "native_binary_kind",
    check := fun fs res =>
      match res.output_path with
      | none => .error (.assertError "no output_path provided to test")
      | some op =>
        match res.platform with
        | none => .error (.assertError "platform info missing in CompileResult")
        | some plat => do
          require (fsExists fs op) ("output does not exist: " ++ op)
          let expected := if plat.os = OS.MACOS then ArtifactKind.MACHO else ArtifactKind.ELF
          match detect_artifact_kind fs op with
          | .error e => .error (.uncaught e)
          | .ok info =>
            require (info.kind == expected)
              ("native output kind expected " ++ expected.pyName ++ " on " ++
                plat.os.pyName ++ ", got " ++ info.kind.pyName ++ " (" ++ info.path ++ ")") }

/-- Embeds `assert_native_binary_kind_at`. -/
def assert_native_binary_kind_at (path : String) : Assertion :=
  { name := "native_binary_kind_at",
    check := fun fs res =>
      match res.platform with
      | none => .error (.assertError "platform info missing in CompileResult")
      | some plat => do
        let p := resolve_output_path res path
        require (fsExists fs p) ("output does not exist: " ++ p)
        let expected := if plat.os = OS.MACOS then ArtifactKind.MACHO else ArtifactKind.ELF
        match detect_artifact_kind fs p with
        | .error e => .error (.uncaught e)
        | .ok info =>
          require (info.kind == expected)
            ("native output kind expected " ++ expected.pyName ++ " on " ++
              plat.os.pyName ++ ", got " ++ info.kind.pyName ++ " (" ++ info.path ++ ")") }

/-! ## framework/testcase.py -/

/-- Embeds `TestCase` of `framework/testcase.py`. -/
structure TestCase where
  name : String
  plan : CompilePlan
  assertions : List Assertion := []

/-- Embeds `TestReport` of `framework/testcase.py`. -/
structure TestReport where
  name : String
  ok : Bool
  errors : List String
  result : CompileResult
deriving DecidableEq, Repr

/-- An exception escaping `TestCase.run`: a runner failure (timeout or
launch failure, not caught anywhere in the framework) or a
non-`AssertError` exception escaping an assertion check. -/
inductive PyError
  | runError (e : RunError)
  | fsError (e : FsError)
deriving DecidableEq, Repr

/-- The `out_path` local of `TestCase.run`:
`(workspace / self.plan.out) if self.plan.out else None`. -/
def TestCase.outPath (tc : TestCase) (workspace : String) : Option String :=
  match tc.plan.out with
  | some o => some (pathJoin workspace o)
  | none => none

/-- The argument vector `TestCase.run` hands to the orchestrator: the
plan's `argv()`, rebuilt — only under `if self.plan.out:` — so that each
source not starting with `/` is joined onto the workspace, followed by
`-o <workspace out>` and the extra arguments. -/
def TestCase.builtArgv (tc : TestCase) (workspace : String) : List String :=
  let argv := tc.plan.argv
  match tc.plan.out with
  | none => argv
  | some o =>
    (tc.plan.sources.map (fun s => if !(isAbs s) then pathJoin workspace s else s)) ++
      ["-o", pathJoin workspace o] ++ tc.plan.extra_args

/-- The assertion loop of `TestCase.run`: each check runs in a
`try/except AssertError` that appends `[name] message` to `errors`; any
other exception escapes the loop (and the whole case). -/
def collectErrors (fs : FS) (res : CompileResult) : List Assertion → Except FsError (List String)
  | [] => .ok []
  | a :: rest =>
    match a.check fs res with
    | .ok _ => collectErrors fs res rest
    | .error (.assertError m) =>
      match collectErrors fs res rest with
      | .ok es => .ok (("[" ++ a.name ++ "] " ++ m) :: es)
      | .error e => .error e
    | .error (.uncaught e) => .error e

/-- Embeds `TestCase.run` of `framework/testcase.py` (no `try/except`
around the orchestrator call: a runner failure propagates). -/
def TestCase.run (tc : TestCase) (cfg : RunnerConfig) (sub : Subprocess) (fs : FS)
    (host : PlatformInfo) (workspace : String) : Except PyError TestReport :=
  let out_path := tc.outPath workspace
  let argv := tc.builtArgv workspace
  match CompilerRunner.compile cfg sub host argv workspace out_path with
  | .error e => .error (.runError e)
  | .ok res =>
    match collectErrors fs res tc.assertions with
    | .error e => .error (.fsError e)
    | .ok errors =>
      .ok { name := tc.name, ok := errors.isEmpty, errors := errors, result := res }

/-! ## framework/suite.py -/

/-- Embeds `TestSuite` of `framework/suite.py`. -/
structure TestSuite where
  name : String
  cases : List TestCase := []

/-- Embeds `SuiteReport` of `framework/suite.py`. -/
structure SuiteReport where
  name : String
  reports : List TestReport
deriving DecidableEq, Repr

/-- Embeds `SuiteReport.ok`. -/
def SuiteReport.ok (rep : SuiteReport) : Bool := rep.reports.all (fun r => r.ok)

/-- The case loop of `TestSuite.run`. Each case gets a fresh uniquely named
temporary subdirectory of the root workspace, prefixed by the case name;
`tempfile`'s random suffix is modelled by the case's position. The loop
body has no `try/except`: an exception from `tc.run` propagates and no
`SuiteReport` is produced (directory creation and cleanup are filesystem
effects outside the model). -/
def runCasesFrom (cfg : RunnerConfig) (sub : Subprocess) (fs : FS) (host : PlatformInfo)
    (root : String) : Nat → List TestCase → Except PyError (List TestReport)
  | _, [] => .ok []
  | i, tc :: rest =>
    let ws := root ++ "/" ++ tc.name ++ "_" ++ toString i
    match tc.run cfg sub fs host ws with
    | .error e => .error e
    | .ok r =>
      match runCasesFrom cfg sub fs host root (i + 1) rest with
      | .ok rs => .ok (r :: rs)
      | .error e => .error e

/-- Embeds `TestSuite.run` of `framework/suite.py`. -/
def TestSuite.run (suite : TestSuite) (cfg : RunnerConfig) (sub : Subprocess) (fs : FS)
    (host : PlatformInfo) (root_workspace : String) : Except PyError SuiteReport :=
  match runCasesFrom cfg sub fs host root_workspace 0 suite.cases with
  | .ok reports => .ok { name := suite.name, reports := reports }
  | .error e => .error e

/-! ## framework/reporter.py -/

/-- One iteration of the reporting loop of `ConsoleReporter.render`:
append the PASS/FAIL line (failures followed by their indented error
lines) and bump the failure counter on a failed case. -/
def renderStep (acc : List String × Nat) (r : TestReport) : List String × Nat :=
  let statusLine := "- " ++ (if r.ok then "PASS" else "FAIL") ++ " " ++ r.name
  let errLines := if r.ok then ([] : List String) else r.errors.map (fun e => "    " ++ e)
  (acc.1 ++ [statusLine] ++ errLines, if r.ok then acc.2 else acc.2 + 1)

/-- Embeds `ConsoleReporter.render`: the printed lines in order, paired
with the returned exit status (`0 if failed == 0 else 1`). -/
def ConsoleReporter.render (rep : SuiteReport) : List String × Int :=
  let total := rep.reports.length
  let step := rep.reports.foldl renderStep (["== Suite: " ++ rep.name ++ " =="], 0)
  let failed := step.2
  let passed := total - failed
  (step.1 ++ ["== Result: " ++ toString passed ++ "/" ++ toString total ++ " passed =="],
    if failed = 0 then 0 else 1)

/-! ## Concrete fixtures used by witnesses, counterexamples and scenario
theorems -/

/-- The empty filesystem. -/
def fsNone : FS := fun _ => none

/-- A result whose executed argument vector is the spec's worked example. -/
def resArgvExample : CompileResult :=
  { run := { argv := ["a", "-o", "out", "b"], cwd := "/w", exit_code := 0,
             stdout := "", stderr := "" } }

/-- A filesystem with one ELF file. -/
def fsElf : FS := fun p => if p = "a.out" then some [0x7F, 0x45, 0x4C, 0x46, 9, 9] else none

/-- A filesystem with one empty file. -/
def fsEmptyFile : FS := fun p => if p = "empty.o" then some [] else none

/-- A configuration with no default environment. -/
def cfgNoDefault : RunnerConfig := { executable := "cc" }

/-- A test case with a relative source and no output path. -/
def tcNoOut : TestCase :=
  { name := "t", plan := { name := "p", sources := ["main.c"] } }

/-- A test case with a relative source and an output path. -/
def tcWithOut : TestCase :=
  { name := "x", plan := { name := "p2", sources := ["main.c"], out := some "a.out" } }

/-- A subprocess oracle that times out exactly on invocations mentioning
`case2` and succeeds on everything else. -/
def subTimeoutCase2 : Subprocess := fun argv _ _ _ =>
  if argv.any (fun s => containsSeq "case2".toList s.toList) then .error .timeout
  else .ok { returncode := 0, stdout := "", stderr := "" }

/-- A minimal passing case compiling `<n>.c` into `a.out`. -/
def mkCase (n : String) : TestCase :=
  { name := n, plan := { name := n, sources := [n ++ ".c"], out := some "a.out" } }

/-- The three-case suite of the claimed timeout scenario. -/
def suite3 : TestSuite :=
  { name := "s", cases := [mkCase "case1", mkCase "case2", mkCase "case3"] }

/-- The host platform snapshot used by the scenario theorems. -/
def hostLinux : PlatformInfo :=
  { os := .LINUX, arch := .X86_64, machine := "x86_64", system := "linux" }

/-- A result with no output path. -/
def emptyRes : CompileResult :=
  { run := { argv := [], cwd := "/w", exit_code := 0, stdout := "", stderr := "" } }

/-- A result with an output path but no platform snapshot. -/
def resNoPlat : CompileResult :=
  { run := { argv := [], cwd := "/w", exit_code := 0, stdout := "", stderr := "" },
    output_path := some "out" }

/-- An assertion check that either passes or fails with a raised
`AssertError` message — never with any other exception. -/
def checkTotal (a : Assertion) : Prop :=
  ∀ (fs : FS) (res : CompileResult),
    a.check fs res = Except.ok () ∨
      ∃ m, a.check fs res = Except.error (CheckFailure.assertError m)

/-! ## Helper lemmas -/

theorem require_ok_iff (b : Bool) (msg : String) :
    require b msg = Except.ok () ↔ b = true := by
  cases b <;> simp [require]

theorem require_total (b : Bool) (msg : String) :
    require b msg = Except.ok () ∨ ∃ m, require b msg = Except.error (.assertError m) := by
  cases b
  · exact Or.inr ⟨msg, rfl⟩
  · exact Or.inl rfl

theorem seq_total (b : Bool) (msg : String) (rest : Except CheckFailure Unit)
    (hrest : b = true → (rest = Except.ok () ∨ ∃ m, rest = Except.error (.assertError m))) :
    ((require b msg >>= fun _ => rest) = Except.ok () ∨
      ∃ m, (require b msg >>= fun _ => rest) = Except.error (.assertError m)) := by
  cases b
  · exact Or.inr ⟨msg, rfl⟩
  · exact hrest rfl

theorem argvScan_cons (needle : String) (rest avail : List String) :
    argvScan (needle :: rest) avail =
      match findConsume needle avail with
      | some remaining => argvScan rest remaining
      | none => false := rfl

theorem argvScan_eq_isSublist (ssub argv : List String) :
    argvScan ssub argv = ssub.isSublist argv := by
  induction ssub generalizing argv with
  | nil => cases argv <;> rfl
  | cons n rest ih =>
    induction argv with
    | nil => rfl
    | cons x xs ihx =>
      by_cases h : x = n
      · subst h
        rw [argvScan_cons]
        simp [findConsume, List.isSublist, ih]
      · have hbeq : (n == x) = false := by
          rw [beq_eq_false_iff_ne]
          exact fun hnx => h hnx.symm
        rw [argvScan_cons]
        rw [show findConsume n (x :: xs) = findConsume n xs from by simp [findConsume, h]]
        rw [← argvScan_cons, ihx]
        simp [List.isSublist, hbeq]

/-- C4: the argument-subsequence assertion passes iff the expected tokens
form a (not necessarily contiguous) subsequence of the executed argument
vector, and the spec's worked example behaves as stated. -/
theorem c4_argv_subsequence_iff :
    (∀ (subseq : List String) (fs : FS) (res : CompileResult),
      (assert_argv_contains subseq).check fs res = Except.ok () ↔
        subseq.Sublist res.run.argv) ∧
    (assert_argv_contains ["a", "b"]).check fsNone resArgvExample = Except.ok () ∧
    (∃ m, (assert_argv_contains ["b", "a"]).check fsNone resArgvExample =
      Except.error (CheckFailure.assertError m)) := by
  refine ⟨fun subseq fs res => ?_, rfl, ⟨_, rfl⟩⟩
  show require (argvScan (subseq.map (fun s => s)) res.run.argv) _ = _ ↔ _
  rw [require_ok_iff, List.map_id', argvScan_eq_isSublist]
  exact List.isSublist_iff_sublist

/-- C5: `argv()` is exactly sources, then the `-o` pair when the output is
set, then the extra arguments, in that order. -/
theorem c5_argv_fixed_concatenation :
    ∀ p : CompilePlan,
      p.argv = p.sources ++
        (match p.out with | some o => ["-o", o] | none => []) ++ p.extra_args := by
  intro p
  cases h : p.out <;> simp [CompilePlan.argv, h]

/-- C7: any file whose first four bytes are the ELF magic classifies as
ELF, regardless of the remaining bytes and of the length beyond 4. -/
theorem c7_elf_magic_wins :
    ∀ (fs : FS) (p : String) (content : List Nat),
      fs p = some content → 4 ≤ content.length →
      content.take 4 = [0x7F, 0x45, 0x4C, 0x46] →
      detect_artifact_kind fs p = Except.ok ⟨p, ArtifactKind.ELF⟩ := by
  intro fs p content hfs hlen htake
  have h1 : (content.take 64).take 4 = [0x7F, 0x45, 0x4C, 0x46] := by
    rw [List.take_take]
    simpa using htake
  have h2 : 4 ≤ (content.take 64).length := by
    rw [List.length_take]
    exact le_min (by norm_num) hlen
  simp [detect_artifact_kind, readPrefix64, hfs, classifyBytes, h1, h2]
  intro hlt
  exact absurd hlen (by omega)

/-- Witness for C7 at a concrete six-byte file. -/
theorem c7_elf_magic_witness :
    detect_artifact_kind fsElf "a.out" = Except.ok ⟨"a.out", ArtifactKind.ELF⟩ :=
  c7_elf_magic_wins fsElf "a.out" [0x7F, 0x45, 0x4C, 0x46, 9, 9] rfl (by norm_num) rfl

/-- C8: classification of an existing empty file is `UNKNOWN` (and does
not raise); on any existing file classification returns some kind rather
than failing; only a missing file surfaces the distinct
file-not-found failure. -/
theorem c8_empty_and_total_classifier :
    (∀ (fs : FS) (p : String), fs p = some [] →
      detect_artifact_kind fs p = Except.ok ⟨p, ArtifactKind.UNKNOWN⟩) ∧
    (∀ (fs : FS) (p : String) (content : List Nat), fs p = some content →
      ∃ k, detect_artifact_kind fs p = Except.ok ⟨p, k⟩) ∧
    (∀ (fs : FS) (p : String), fs p = none →
      detect_artifact_kind fs p = Except.error FsError.fileNotFound) := by
  refine ⟨fun fs p hfs => ?_, fun fs p content hfs => ?_, fun fs p hfs => ?_⟩
  · simp [detect_artifact_kind, readPrefix64, hfs]
    rfl
  · exact ⟨classifyBytes (content.take 64), by simp [detect_artifact_kind, readPrefix64, hfs]⟩
  · simp [detect_artifact_kind, readPrefix64, hfs]

/-- Witness for C8 at a concrete empty file, an inhabited file and a
missing file. -/
theorem c8_empty_classifier_witness :
    detect_artifact_kind fsEmptyFile "empty.o" = Except.ok ⟨"empty.o", ArtifactKind.UNKNOWN⟩ ∧
    (∃ k, detect_artifact_kind fsElf "a.out" = Except.ok ⟨"a.out", k⟩) ∧
    detect_artifact_kind fsEmptyFile "gone.o" = Except.error FsError.fileNotFound := by
  refine ⟨c8_empty_and_total_classifier.1 fsEmptyFile "empty.o" rfl,
    c8_empty_and_total_classifier.2.1 fsElf "a.out" [0x7F, 0x45, 0x4C, 0x46, 9, 9] rfl,
    c8_empty_and_total_classifier.2.2 fsEmptyFile "gone.o" rfl⟩

/-- The key collapse: `childEnvOf` cannot tell an explicit empty override
map from no override at all (`if env:` is false for both, and the final
`merged_env if merged_env else None` maps an empty merge to `None`). -/
theorem childEnvOf_some_nil (cfg : RunnerConfig) :
    childEnvOf cfg (some []) = childEnvOf cfg none := by
  simp [childEnvOf, mergedEnvOf, pyTruthyMap]

/-- C2 (refuted): with no default environment, an explicit empty override
map produces a `None` child environment — ambient inheritance — and a run
with `env={}` is indistinguishable from a run with no override, for every
subprocess behaviour. -/
theorem c2_explicit_empty_env_collapses_to_inherit :
    childEnvOf cfgNoDefault (some []) = none ∧
    (∀ (cfg : RunnerConfig) (sub : Subprocess) (args : List String) (cwd : String)
        (t : Option Rat),
      CompilerRunner.run cfg sub args cwd (some []) t =
        CompilerRunner.run cfg sub args cwd none t) := by
  refine ⟨rfl, fun cfg sub args cwd t => ?_⟩
  simp [CompilerRunner.run, childEnvOf_some_nil]

/-- C10: a zero timeout override is falsy in `timeout_s or default`, so the
subprocess runs with the configured default timeout (20 by default), and a
zero override is indistinguishable from passing no override. -/
theorem c10_zero_timeout_override_uses_default :
    (∀ cfg : RunnerConfig, effectiveTimeout cfg (some 0) = cfg.default_timeout_s) ∧
    (∀ (cfg : RunnerConfig) (sub : Subprocess) (args : List String) (cwd : String)
        (env : Option EnvMap),
      CompilerRunner.run cfg sub args cwd env (some 0) =
        CompilerRunner.run cfg sub args cwd env none) ∧
    effectiveTimeout { executable := "cc" } (some 0) = 20 := by
  refine ⟨fun cfg => by simp [effectiveTimeout],
    fun cfg sub args cwd env => by simp [CompilerRunner.run, effectiveTimeout], rfl⟩

/-- C3 (refuted): a plan without an output path reaches the runner with its
sources exactly as written — the non-absolute source `main.c` is not
re-resolved against the workspace. -/
theorem c3_no_reresolution_without_out :
    tcNoOut.plan.out = none ∧
    isAbs "main.c" = false ∧
    tcNoOut.builtArgv "/ws/t_0" = ["main.c"] ∧
    tcNoOut.builtArgv "/ws/t_0" ≠ ["/ws/t_0/main.c"] := by
  refine ⟨rfl, rfl, rfl, by decide⟩

/-- C3 as amended: the re-resolution of non-absolute sources happens
exactly when the plan has an output path set; without one the plan's
rendered argv is passed through unchanged. -/
theorem c3_source_resolution_only_with_out :
    ∀ (tc : TestCase) (ws : String),
      (∀ o, tc.plan.out = some o →
        tc.builtArgv ws =
          tc.plan.sources.map (fun s => if !(isAbs s) then pathJoin ws s else s) ++
            ["-o", pathJoin ws o] ++ tc.plan.extra_args) ∧
      (tc.plan.out = none → tc.builtArgv ws = tc.plan.argv) := by
  intro tc ws
  constructor
  · intro o ho
    simp [TestCase.builtArgv, ho]
  · intro h
    simp [TestCase.builtArgv, h]

/-- Witness for C3's amended statement at both a plan with and a plan
without an output path. -/
theorem c3_source_resolution_witness :
    tcWithOut.builtArgv "/ws/x_1" = ["/ws/x_1/main.c", "-o", "/ws/x_1/a.out"] ∧
    tcNoOut.builtArgv "/ws/t_0" = ["main.c"] := by
  constructor
  · rw [(c3_source_resolution_only_with_out tcWithOut "/ws/x_1").1 "a.out" rfl]
    rfl
  · rw [(c3_source_resolution_only_with_out tcNoOut "/ws/t_0").2 rfl]
    rfl

/-- C1 (refuted): when case 2's process times out, the timeout propagates
out of `TestSuite.run` — no `SuiteReport` is produced and case 3 never
runs — although each of case 1 and case 3 run individually produces an ok
report under the same oracles. -/
theorem c1_timeout_aborts_suite :
    suite3.run cfgNoDefault subTimeoutCase2 fsNone hostLinux "root" =
      Except.error (PyError.runError RunError.timeout) ∧
    ((mkCase "case1").run cfgNoDefault subTimeoutCase2 fsNone hostLinux "root/case1_0").map
      (fun r => r.ok) = Except.ok true ∧
    ((mkCase "case3").run cfgNoDefault subTimeoutCase2 fsNone hostLinux "root/case3_2").map
      (fun r => r.ok) = Except.ok true := by
  exact ⟨rfl, rfl, rfl⟩

theorem renderStep_foldl_count (l : List TestReport) (lines : List String) (n : Nat) :
    (l.foldl renderStep (lines, n)).2 = n + l.countP (fun r => !r.ok) := by
  induction l generalizing lines n with
  | nil => simp
  | cons r rest ih =>
    rw [List.foldl_cons, ih]
    cases hok : r.ok
    all_goals simp [renderStep, hok, List.countP_cons]
    all_goals omega

theorem render_snd (rep : SuiteReport) :
    (ConsoleReporter.render rep).2 =
      if rep.reports.countP (fun r => !r.ok) = 0 then 0 else 1 := by
  simp [ConsoleReporter.render, renderStep_foldl_count]

/-- C9: `SuiteReport.ok` is all-cases-ok, and the reporter's exit status is
`0` exactly when every report is ok. -/
theorem c9_render_exit_status_iff_all_ok :
    ∀ rep : SuiteReport,
      (rep.ok = true ↔ ∀ r ∈ rep.reports, r.ok = true) ∧
      ((ConsoleReporter.render rep).2 = 0 ↔ rep.ok = true) := by
  intro rep
  have hall : rep.ok = true ↔ ∀ r ∈ rep.reports, r.ok = true := by
    simp [SuiteReport.ok, List.all_eq_true]
  have hC : rep.reports.countP (fun r => !r.ok) = 0 ↔ rep.ok = true := by
    rw [List.countP_eq_zero, hall]
    simp
  refine ⟨hall, ?_⟩
  rw [render_snd]
  constructor
  · intro h0
    apply hC.mp
    by_contra hC0
    rw [if_neg hC0] at h0
    exact one_ne_zero h0
  · intro hok
    rw [if_pos (hC.mpr hok)]

theorem exists_content_of_fsExists {fs : FS} {p : String} (h : fsExists fs p = true) :
    ∃ c, fs p = some c := by
  unfold fsExists at h
  exact Option.isSome_iff_exists.mp h

theorem detect_ok_of_some {fs : FS} {p : String} {c : List Nat} (hfp : fs p = some c) :
    detect_artifact_kind fs p = Except.ok ⟨p, classifyBytes (c.take 64)⟩ := by
  simp [detect_artifact_kind, readPrefix64, hfp]

theorem check_total_exit_code (e : Int) : checkTotal (assert_exit_code e) := by
  intro fs res
  exact require_total _ _

theorem check_total_argv_contains (ss : List String) : checkTotal (assert_argv_contains ss) := by
  intro fs res
  exact require_total _ _

theorem check_total_output_name (n : String) : checkTotal (assert_output_name n) := by
  intro fs res
  cases hop : res.output_path with
  | none => exact Or.inr ⟨"no output_path provided to test", by simp [assert_output_name, hop]⟩
  | some op =>
    have : (assert_output_name n).check fs res =
        require (pathName op == n)
          ("output name expected '" ++ n ++ "', got '" ++ pathName op ++ "'") := by
      simp [assert_output_name, hop]
    rw [this]
    exact require_total _ _

theorem check_total_output_exists : checkTotal assert_output_exists := by
  intro fs res
  cases hop : res.output_path with
  | none => exact Or.inr ⟨"no output_path provided to test", by simp [assert_output_exists, hop]⟩
  | some op =>
    have : assert_output_exists.check fs res =
        require (fsExists fs op) ("output does not exist: " ++ op) := by
      simp [assert_output_exists, hop]
    rw [this]
    exact require_total _ _

theorem check_total_output_kind (k : ArtifactKind) : checkTotal (assert_output_kind k) := by
  intro fs res
  cases hop : res.output_path with
  | none => exact Or.inr ⟨"no output_path provided to test", by simp [assert_output_kind, hop]⟩
  | some op =>
    have hrw : (assert_output_kind k).check fs res =
        (require (fsExists fs op) ("output does not exist: " ++ op) >>= fun _ =>
          match detect_artifact_kind fs op with
          | .error e => .error (.uncaught e)
          | .ok info =>
            require (info.kind == k)
              ("output kind expected " ++ k.pyName ++ ", got " ++
                info.kind.pyName ++ " (" ++ info.path ++ ")")) := by
      simp [assert_output_kind, hop]
    rw [hrw]
    apply seq_total
    intro hex
    obtain ⟨c, hfp⟩ := exists_content_of_fsExists hex
    rw [detect_ok_of_some hfp]
    exact require_total _ _

theorem check_total_output_exists_at (path : String) :
    checkTotal (assert_output_exists_at path) := by
  intro fs res
  exact require_total _ _

theorem check_total_output_kind_at (path : String) (k : ArtifactKind) :
    checkTotal (assert_output_kind_at path k) := by
  intro fs res
  have hrw : (assert_output_kind_at path k).check fs res =
      (require (fsExists fs (resolve_output_path res path))
          ("output does not exist: " ++ resolve_output_path res path) >>= fun _ =>
        match detect_artifact_kind fs (resolve_output_path res path) with
        | .error e => .error (.uncaught e)
        | .ok info =>
          require (info.kind == k)
            ("output kind expected " ++ k.pyName ++ ", got " ++
              info.kind.pyName ++ " (" ++ info.path ++ ")")) := by
    simp [assert_output_kind_at]
  rw [hrw]
  apply seq_total
  intro hex
  obtain ⟨c, hfp⟩ := exists_content_of_fsExists hex
  rw [detect_ok_of_some hfp]
  exact require_total _ _

theorem check_total_output_nonempty_at (path : String) :
    checkTotal (assert_output_nonempty_at path) := by
  intro fs res
  have hrw : (assert_output_nonempty_at path).check fs res =
      (require (fsExists fs (resolve_output_path res path))
          ("output does not exist: " ++ resolve_output_path res path) >>= fun _ =>
        require (decide (0 < ((fs (resolve_output_path res path)).getD []).length))
          ("output is empty: " ++ resolve_output_path res path)) := by
    simp [assert_output_nonempty_at]
  rw [hrw]
  apply seq_total
  intro _
  exact require_total _ _

theorem check_total_stdout_contains (text : String) :
    checkTotal (assert_stdout_contains text) := by
  intro fs res
  exact require_total _ _

theorem check_total_native_binary_kind : checkTotal assert_native_binary_kind := by
  intro fs res
  cases hop : res.output_path with
  | none =>
    exact Or.inr ⟨"no output_path provided to test", by simp [assert_native_binary_kind, hop]⟩
  | some op =>
    cases hpl : res.platform with
    | none =>
      exact Or.inr ⟨"platform info missing in CompileResult",
        by simp [assert_native_binary_kind, hop, hpl]⟩
    | some plat =>
      have hrw : assert_native_binary_kind.check fs res =
          (require (fsExists fs op) ("output does not exist: " ++ op) >>= fun _ =>
            match detect_artifact_kind fs op with
            | .error e => .error (.uncaught e)
            | .ok info =>
              require
                (info.kind ==
                  (if plat.os = OS.MACOS then ArtifactKind.MACHO else ArtifactKind.ELF))
                ("native output kind expected " ++
                  (if plat.os = OS.MACOS then ArtifactKind.MACHO else ArtifactKind.ELF).pyName ++
                  " on " ++ plat.os.pyName ++ ", got " ++ info.kind.pyName ++
                  " (" ++ info.path ++ ")")) := by
        simp [assert_native_binary_kind, hop, hpl]
      rw [hrw]
      apply seq_total
      intro hex
      obtain ⟨c, hfp⟩ := exists_content_of_fsExists hex
      rw [detect_ok_of_some hfp]
      exact require_total _ _

theorem check_total_native_binary_kind_at (path : String) :
    checkTotal (assert_native_binary_kind_at path) := by
  intro fs res
  cases hpl : res.platform with
  | none =>
    exact Or.inr ⟨"platform info missing in CompileResult",
      by simp [assert_native_binary_kind_at, hpl]⟩
  | some plat =>
    have hrw : (assert_native_binary_kind_at path).check fs res =
        (require (fsExists fs (resolve_output_path res path))
            ("output does not exist: " ++ resolve_output_path res path) >>= fun _ =>
          match detect_artifact_kind fs (resolve_output_path res path) with
          | .error e => .error (.uncaught e)
          | .ok info =>
            require
              (info.kind ==
                (if plat.os = OS.MACOS then ArtifactKind.MACHO else ArtifactKind.ELF))
              ("native output kind expected " ++
                (if plat.os = OS.MACOS then ArtifactKind.MACHO else ArtifactKind.ELF).pyName ++
                " on " ++ plat.os.pyName ++ ", got " ++ info.kind.pyName ++
                " (" ++ info.path ++ ")")) := by
      simp [assert_native_binary_kind_at, hpl]
    rw [hrw]
    apply seq_total
    intro hex
    obtain ⟨c, hfp⟩ := exists_content_of_fsExists hex
    rw [detect_ok_of_some hfp]
    exact require_total _ _

/-- C6: every assertion the factories produce either passes or fails with
a raised `AssertError` carrying a message — never with any other
exception — and a missing required field (absent output path, absent
platform info) is itself such an assertion failure with its descriptive
message. -/
theorem c6_assertions_fail_only_as_assert_errors :
    (∀ e, checkTotal (assert_exit_code e)) ∧
    (∀ ss, checkTotal (assert_argv_contains ss)) ∧
    (∀ n, checkTotal (assert_output_name n)) ∧
    checkTotal assert_output_exists ∧
    (∀ k, checkTotal (assert_output_kind k)) ∧
    (∀ p, checkTotal (assert_output_exists_at p)) ∧
    (∀ p k, checkTotal (assert_output_kind_at p k)) ∧
    (∀ p, checkTotal (assert_output_nonempty_at p)) ∧
    (∀ t, checkTotal (assert_stdout_contains t)) ∧
    checkTotal assert_native_binary_kind ∧
    (∀ p, checkTotal (assert_native_binary_kind_at p)) ∧
    (∀ (n : String) (fs : FS) (res : CompileResult), res.output_path = none →
      (assert_output_name n).check fs res =
        Except.error (CheckFailure.assertError "no output_path provided to test")) ∧
    (∀ (k : ArtifactKind) (fs : FS) (res : CompileResult), res.output_path = none →
      (assert_output_kind k).check fs res =
        Except.error (CheckFailure.assertError "no output_path provided to test")) ∧
    (∀ (fs : FS) (res : CompileResult) (op : String),
      res.output_path = some op → res.platform = none →
      assert_native_binary_kind.check fs res =
        Except.error (CheckFailure.assertError "platform info missing in CompileResult")) := by
  refine ⟨check_total_exit_code, check_total_argv_contains, check_total_output_name,
    check_total_output_exists, check_total_output_kind, check_total_output_exists_at,
    check_total_output_kind_at, check_total_output_nonempty_at, check_total_stdout_contains,
    check_total_native_binary_kind, check_total_native_binary_kind_at, ?_, ?_, ?_⟩
  · intro n fs res hop
    simp [assert_output_name, hop]
  · intro k fs res hop
    simp [assert_output_kind, hop]
  · intro fs res op hop hpl
    simp [assert_native_binary_kind, hop, hpl]

/-- Witness for C6 at concrete results with the missing fields. -/
theorem c6_missing_field_witness :
    (assert_output_name "a.out").check fsNone emptyRes =
      Except.error (CheckFailure.assertError "no output_path provided to test") ∧
    assert_native_binary_kind.check fsNone resNoPlat =
      Except.error (CheckFailure.assertError "platform info missing in CompileResult") ∧
    ((assert_exit_code 0).check fsNone emptyRes = Except.ok () ∨
      ∃ m, (assert_exit_code 0).check fsNone emptyRes =
        Except.error (CheckFailure.assertError m)) := by
  refine ⟨?_, ?_, ?_⟩
  · exact c6_assertions_fail_only_as_assert_errors.2.2.2.2.2.2.2.2.2.2.2.1
      "a.out" fsNone emptyRes rfl
  · exact c6_assertions_fail_only_as_assert_errors.2.2.2.2.2.2.2.2.2.2.2.2.2
      fsNone resNoPlat "out" rfl rfl
  · exact c6_assertions_fail_only_as_assert_errors.1 0 fsNone emptyRes

end CTestFw
